import Mathlib

/-!
Verification development for the MCP adapter servers repository
(google-maps, national-weather-service, github, notion adapters).

The TypeScript sources are shallowly embedded:
* each registered tool's handler becomes a Lean function in a small
  state-passing effect type `Proc` that records the upstream requests it
  issues (in order) and either returns a value or raises a string error
  (modelling a thrown / rejected `Error` by its `.message`);
* stub upstreams are explicit functions from requests to responses;
* JavaScript floating-point formatting (`toFixed`, `toLocaleString`,
  default number printing) is abstracted as function parameters, since
  IEEE-754 formatting is not faithfully representable; every theorem
  below quantifies over those formatters, so no conclusion depends on
  their behaviour;
* upstream JSON payloads are embedded as typed structures mirroring the
  TypeScript interfaces declared in the sources (the unchecked `as`
  casts are modelled by total projections whose off-variant value is
  never reached under the hypotheses of the theorems).
-/

namespace Mcp

/-- A content block of a tool invocation result.  The sources only ever
produce blocks of the form `{ type: "text", text: s }`. -/
inductive Content where
  | text (s : String)
  deriving DecidableEq, Repr

/-! ### Substring machinery

Executable substring test on character lists, with the append-monotonicity
lemmas used to show that a produced markdown string contains a given
fragment even when part of the string is an abstract formatter output. -/

/-- Test whether `p` is an initial segment of `s`. -/
def prefixAt : List Char → List Char → Bool
  | [], _ => true
  | _ :: _, [] => false
  | c :: p, d :: s => c == d && prefixAt p s

/-- Test whether `p` occurs contiguously inside `s`. -/
def containsL (p : List Char) : List Char → Bool
  | [] => prefixAt p []
  | c :: s => prefixAt p (c :: s) || containsL p s

/-- Test whether the string `pat` occurs inside `s`. -/
def strContains (s pat : String) : Bool :=
  containsL pat.toList s.toList

theorem prefixAt_append (p s t : List Char) (h : prefixAt p s = true) :
    prefixAt p (s ++ t) = true := by
  induction p generalizing s with
  | nil => simp [prefixAt]
  | cons c p ih =>
    cases s with
    | nil => simp [prefixAt] at h
    | cons d s =>
      simp only [prefixAt, Bool.and_eq_true] at h ⊢
      exact ⟨h.1, ih s h.2⟩

theorem containsL_append_left (p a b : List Char) (h : containsL p a = true) :
    containsL p (a ++ b) = true := by
  induction a with
  | nil =>
    cases p with
    | nil => cases b <;> simp [containsL, prefixAt]
    | cons c p => simp [containsL, prefixAt] at h
  | cons c a ih =>
    simp only [containsL, Bool.or_eq_true] at h ⊢
    cases h with
    | inl h => exact Or.inl (prefixAt_append _ _ _ h)
    | inr h => exact Or.inr (ih h)

theorem containsL_append_right (p a b : List Char) (h : containsL p b = true) :
    containsL p (a ++ b) = true := by
  induction a with
  | nil => simpa using h
  | cons c a ih =>
    simp only [containsL, Bool.or_eq_true]
    exact Or.inr ih

theorem toList_append (a b : String) : (a ++ b).toList = a.toList ++ b.toList := by
  cases a with
  | mk da => cases b with
    | mk db => rfl

theorem strContains_append_left (a b p : String) (h : strContains a p = true) :
    strContains (a ++ b) p = true := by
  unfold strContains at h ⊢
  rw [toList_append]
  exact containsL_append_left _ _ _ h

theorem strContains_append_right (a b p : String) (h : strContains b p = true) :
    strContains (a ++ b) p = true := by
  unfold strContains at h ⊢
  rw [toList_append]
  exact containsL_append_right _ _ _ h

/-! ### The effect type of handlers

A handler computation over requests of type `ρ` and raw upstream
responses of type `σ` threads a stub environment `ρ → σ` and a log of
the requests issued so far, and either returns a value or raises a
string error message.  This models the sources' `async` functions:
`await` of an upstream call appends to the log, `throw new Error(m)`
raises `m`, `try`/`catch` is `Proc.tryCatch`. -/

def Proc (ρ σ α : Type) : Type :=
  (ρ → σ) → List ρ → List ρ × Except String α

namespace Proc

def pure' (a : α) : Proc ρ σ α := fun _ log => (log, Except.ok a)

def bind' (x : Proc ρ σ α) (f : α → Proc ρ σ β) : Proc ρ σ β := fun env log =>
  match x env log with
  | (log', Except.ok a) => f a env log'
  | (log', Except.error e) => (log', Except.error e)

instance : Monad (Proc ρ σ) where
  pure := pure'
  bind := bind'

/-- Raise an error (models `throw new Error(m)`). -/
def throwErr (m : String) : Proc ρ σ α := fun _ log => (log, Except.error m)

/-- Embedding of `try { x } catch (e) { h(e.message) }`. -/
def tryCatch (x : Proc ρ σ α) (h : String → Proc ρ σ α) : Proc ρ σ α := fun env log =>
  match x env log with
  | (log', Except.ok a) => (log', Except.ok a)
  | (log', Except.error e) => h e env log'

/-- Issue an upstream request: the request is recorded in the log and the
stub's raw response is interpreted by `interp` (for instance the
status-code mapping of `weatherApiRequest`). -/
def call (interp : σ → Except String τ) (r : ρ) : Proc ρ σ τ := fun env log =>
  (log ++ [r], interp (env r))

/-- Lift a pure `Except` computation (a synchronous helper that may throw). -/
def ofExcept (x : Except String α) : Proc ρ σ α := fun _ log => (log, x)

/-- Run a computation against a stub environment, starting from an empty log. -/
def run (x : Proc ρ σ α) (env : ρ → σ) : List ρ × Except String α :=
  x env []

theorem run_tryCatch_error (x : Proc ρ σ α) (h : String → Proc ρ σ α)
    (env : ρ → σ) (log log' : List ρ) (m : String)
    (hx : x env log = (log', Except.error m)) :
    tryCatch x h env log = h m env log' := by
  unfold tryCatch
  rw [hx]

end Proc

@[simp] theorem proc_bind_app (x : Proc ρ σ α) (f : α → Proc ρ σ β)
    (env : ρ → σ) (log : List ρ) :
    (x >>= f) env log =
      (match x env log with
       | (log', Except.ok a) => f a env log'
       | (log', Except.error e) => (log', Except.error e)) := rfl

@[simp] theorem proc_pure_app (a : α) (env : ρ → σ) (log : List ρ) :
    (pure a : Proc ρ σ α) env log = (log, Except.ok a) := rfl

@[simp] theorem proc_throwErr_app (m : String) (env : ρ → σ) (log : List ρ) :
    (Proc.throwErr m : Proc ρ σ α) env log = (log, Except.error m) := rfl

@[simp] theorem proc_ofExcept_app (x : Except String α) (env : ρ → σ) (log : List ρ) :
    (Proc.ofExcept x : Proc ρ σ α) env log = (log, x) := rfl

@[simp] theorem proc_call_app (interp : σ → Except String τ) (r : ρ)
    (env : ρ → σ) (log : List ρ) :
    Proc.call interp r env log = (log ++ [r], interp (env r)) := rfl

@[simp] theorem proc_tryCatch_app (x : Proc ρ σ α) (h : String → Proc ρ σ α)
    (env : ρ → σ) (log : List ρ) :
    Proc.tryCatch x h env log =
      (match x env log with
       | (log', Except.ok a) => (log', Except.ok a)
       | (log', Except.error e) => h e env log') := rfl

/-- Does an invocation outcome have the uniform success shape — one text
block — whose text contains `pat`? -/
def resultTextContains (x : Except String (List Content)) (pat : String) : Bool :=
  match x with
  | Except.ok [Content.text s] => strContains s pat
  | _ => false

/-- Does an invocation outcome have the uniform success shape (a single
text block)? -/
def resultIsSuccessText (x : Except String (List Content)) : Bool :=
  match x with
  | Except.ok [Content.text _] => true
  | _ => false

/-! ### JavaScript formatting abstraction

`Number.prototype.toFixed`, `Date.prototype.toLocaleString` and default
number printing operate on IEEE-754 doubles and locale data; they are
abstracted as an explicit record of functions.  Numeric upstream values
are embedded as exact rationals; the decimal literals of the sources
(`3.28084`, `2.237`, ...) become the corresponding exact rationals. -/
structure JsFmt where
  toFixed : Nat → Rat → String
  locale : String → String
  numStr : Rat → String

/-! ### National Weather Service adapter (`national-weather-service/src/index.ts`)

Typed embeddings of the response interfaces declared at the top of the
source file.  A response's `properties` projection is folded into the
carried structure; optional numeric fields of the form
`field?: { value: number | null }` become `Option (Option Rat)`. -/

/-- The `PointMetadata` interface of the source (fields beyond the three used by the
handlers are carried verbatim as strings). -/
structure PointMetadata where
  gridId : String
  gridX : Int
  gridY : Int
  cwa : String
  forecastOffice : String
  forecast : String
  forecastHourly : String
  deriving DecidableEq, Inhabited

/-- One element of `StationCollection.features[..].properties`. -/
structure StationProps where
  stationIdentifier : String
  name : String
  elevation : Option Rat
  distance : Option Rat
  deriving DecidableEq, Inhabited

/-- One element of `ForecastResponse.properties.periods`.  Displayed
numbers (`temperature`, precipitation percentage) are integral in the
upstream data and are embedded as `Int`. -/
structure ForecastPeriod where
  name : String
  temperature : Int
  temperatureUnit : String
  shortForecast : String
  detailedForecast : String
  windSpeed : Option String
  windDirection : Option String
  probabilityOfPrecipitation : Option Int
  deriving DecidableEq, Inhabited

/-- The `ForecastResponse.properties` payload. -/
structure Forecast where
  updateTime : String
  periods : List ForecastPeriod
  deriving DecidableEq, Inhabited

/-- The `ObservationResponse.properties` payload. -/
structure Observation where
  timestamp : String
  temperature : Option (Option Rat)
  heatIndex : Option (Option Rat)
  windChill : Option (Option Rat)
  textDescription : Option String
  relativeHumidity : Option (Option Rat)
  windSpeed : Option (Option Rat)
  windDirection : Option (Option Rat)
  barometricPressure : Option (Option Rat)
  visibility : Option (Option Rat)
  deriving DecidableEq, Inhabited

/-- One element of `AlertCollection.features[..].properties`. -/
structure AlertProps where
  event : String
  severity : String
  urgency : String
  areaDesc : String
  effective : Option String
  expires : Option String
  description : String
  instruction : Option String
  deriving DecidableEq, Inhabited

/-- The JSON body of a weather.gov response, already parsed into the
typed shape the handler casts it to. -/
inductive NwsResp where
  | points (p : PointMetadata)
  | stations (s : List StationProps)
  | forecast (f : Forecast)
  | obs (o : Observation)
  | alerts (a : List AlertProps)
  deriving DecidableEq, Inhabited

/-- Models the unchecked TypeScript cast `as { properties: PointMetadata }`:
total with an arbitrary default on a mismatched variant (a mismatched
stub is never supplied in any theorem below). -/
def NwsResp.asPoints : NwsResp → PointMetadata
  | NwsResp.points p => p
  | _ => default

/-- Models the cast `as StationCollection`. -/
def NwsResp.asStations : NwsResp → List StationProps
  | NwsResp.stations s => s
  | _ => default

/-- Models the cast `as ForecastResponse`. -/
def NwsResp.asForecast : NwsResp → Forecast
  | NwsResp.forecast f => f
  | _ => default

/-- Models the cast `as ObservationResponse`. -/
def NwsResp.asObs : NwsResp → Observation
  | NwsResp.obs o => o
  | _ => default

/-- Models the cast `as AlertCollection`. -/
def NwsResp.asAlerts : NwsResp → List AlertProps
  | NwsResp.alerts a => a
  | _ => default

/-- Outcome of one `fetch` to weather.gov: either an HTTP response with a
status, a status text and a parsed JSON body, or a transport-level
failure whose raised message is carried (node's failed `fetch` raises a
`TypeError` whose message contains the word `fetch`). -/
inductive HttpOutcome where
  | resp (status : Nat) (statusText : String) (body : NwsResp)
  | transport (msg : String)
  deriving DecidableEq

/-- The connectivity message of `weatherApiRequest`. -/
def connectMsg : String :=
  "Unable to connect to weather service. Please check your internet connection."

/-- Embedding of `Response.ok` of the fetch API: status in the range 200-299. -/
def respOk (status : Nat) : Bool := 200 ≤ status && status ≤ 299

/-- Embedding of `weatherApiRequest`'s error mapping: the `try` block
raises per-status messages for non-ok responses, and the `catch` block
rewrites any raised message containing `"fetch"` into the connectivity
message and re-raises every other message unchanged. -/
def weatherApiRequestE (o : HttpOutcome) : Except String NwsResp :=
  let inner : Except String NwsResp :=
    match o with
    | HttpOutcome.transport m => Except.error m
    | HttpOutcome.resp st stx body =>
      if !(respOk st) then
        if st == 404 then Except.error "Location not found or no data available"
        else if st == 500 then Except.error "Weather service temporarily unavailable"
        else Except.error ("Weather API error: " ++ toString st ++ " " ++ stx)
      else Except.ok body
  match inner with
  | Except.ok v => Except.ok v
  | Except.error m =>
    if strContains m "fetch" then Except.error connectMsg else Except.error m

/-- A weather-handler computation: requests are endpoint strings, the
stub yields an `HttpOutcome` per endpoint. -/
abbrev NwsProc (α : Type) : Type := Proc String HttpOutcome α

/-- Embedding of `await weatherApiRequest(endpoint)`. -/
def apiReq (endpoint : String) : NwsProc NwsResp :=
  Proc.call weatherApiRequestE endpoint

/-! #### `parseLocation`

The source matches the location against the regular expression
`^(-?\d+\.?\d*),\s*(-?\d+\.?\d*)$` and converts the two groups with
`Number.parseFloat`; the numbers are then only ever re-interpolated into
strings.  Coordinates are therefore embedded as the canonical decimal
strings JavaScript prints for them (leading zeros of the integer part
and trailing zeros of the fraction removed, a dot with an empty fraction
removed, `-0` printed as `0`) — exact for inputs within double
precision, which covers every input appearing below. -/

/-- Parse one `-?\d+\.?\d*` token (maximal munch), returning the sign,
integer digits, fraction digits and the unconsumed rest. -/
def parseNumTok (cs : List Char) : Option (Bool × List Char × List Char × List Char) :=
  let (neg, cs1) : Bool × List Char :=
    match cs with
    | '-' :: t => (true, t)
    | _ => (false, cs)
  let ip := cs1.takeWhile Char.isDigit
  let cs2 := cs1.dropWhile Char.isDigit
  if ip.isEmpty then none
  else
    match cs2 with
    | '.' :: t => some (neg, ip, t.takeWhile Char.isDigit, t.dropWhile Char.isDigit)
    | _ => some (neg, ip, [], cs2)

/-- The canonical decimal string `Number.parseFloat` followed by template
interpolation produces for a matched group. -/
def canonNum (neg : Bool) (ip fp : List Char) : String :=
  let ip1 := ip.dropWhile (fun c => c == '0')
  let ip2 := if ip1.isEmpty then ['0'] else ip1
  let fp1 := (fp.reverse.dropWhile (fun c => c == '0')).reverse
  let core := String.mk (if fp1.isEmpty then ip2 else ip2 ++ '.' :: fp1)
  if neg && !(ip2 == ['0'] && fp1.isEmpty) then "-" ++ core else core

/-- Match the whole-string coordinate regular expression
`^(-?\d+\.?\d*),\s*(-?\d+\.?\d*)$`. -/
def matchCoord (s : String) : Option (String × String) :=
  match parseNumTok s.toList with
  | none => none
  | some (neg1, ip1, fp1, rest1) =>
    match rest1 with
    | ',' :: rest2 =>
      let rest3 := rest2.dropWhile (fun c =>
        c == ' ' || c == '\t' || c == '\n' || c == '\r')
      match parseNumTok rest3 with
      | none => none
      | some (neg2, ip2, fp2, rest4) =>
        if rest4.isEmpty then some (canonNum neg1 ip1 fp1, canonNum neg2 ip2 fp2)
        else none
    | _ => none

/-- Embedding of `parseLocation`: coordinates or a thrown error. -/
def parseLocation (location : String) : Except String (String × String) :=
  match matchCoord location with
  | some c => Except.ok c
  | none => Except.error
      ("Location parsing not yet implemented for \"" ++ location ++
       "\". Please provide coordinates in \"latitude,longitude\" format (e.g., \"40.7128,-74.0060\")")

/-- Embedding of `getPointMetadata`. -/
def getPointMetadata (lat lng : String) : NwsProc PointMetadata := do
  let d ← apiReq ("/points/" ++ lat ++ "," ++ lng)
  pure d.asPoints

/-! #### Tool: `get_current_weather` -/

/-- The markdown assembled by `get_current_weather` after all upstream
calls have succeeded; each conditional line mirrors the source's
truthiness tests (`value !== null` guards, `obs.textDescription`
non-empty-string truthiness). -/
def currentWeatherMarkdown (fmt : JsFmt) (lat lng station : String)
    (obs : Observation) : String :=
  "# Current Weather\n\n" ++
  "**Location:** " ++ lat ++ ", " ++ lng ++ "\n" ++
  "**Station:** " ++ station ++ "\n" ++
  "**Observed:** " ++ fmt.locale obs.timestamp ++ "\n\n" ++
  (match obs.temperature with
   | some (some v) =>
     "**Temperature:** " ++ fmt.toFixed 1 (v * 9 / 5 + 32) ++ "°F (" ++
     fmt.toFixed 1 v ++ "°C)\n"
   | _ => "") ++
  (match obs.heatIndex with
   | some (some v) =>
     "**Feels Like:** " ++ fmt.toFixed 1 (v * 9 / 5 + 32) ++ "°F (heat index)\n"
   | _ =>
     match obs.windChill with
     | some (some v) =>
       "**Feels Like:** " ++ fmt.toFixed 1 (v * 9 / 5 + 32) ++ "°F (wind chill)\n"
     | _ => "") ++
  (match obs.textDescription with
   | some t => if t = "" then "" else "**Conditions:** " ++ t ++ "\n"
   | none => "") ++
  (match obs.relativeHumidity with
   | some (some v) => "**Humidity:** " ++ fmt.toFixed 0 v ++ "%\n"
   | _ => "") ++
  (match obs.windSpeed, obs.windDirection with
   | some (some v1), some (some v2) =>
     "**Wind:** " ++ fmt.toFixed 0 (v1 * (2237 / 1000 : Rat)) ++ " mph from " ++
     fmt.numStr v2 ++ "°\n"
   | _, _ => "") ++
  (match obs.barometricPressure with
   | some (some v) =>
     "**Pressure:** " ++ fmt.toFixed 2 (v * (2953 / 10000000 : Rat)) ++ " inHg\n"
   | _ => "") ++
  (match obs.visibility with
   | some (some v) =>
     "**Visibility:** " ++ fmt.toFixed 1 (v / (160934 / 100 : Rat)) ++ " miles\n"
   | _ => "")

/-- The `try` block of the `get_current_weather` handler. -/
def getCurrentWeatherBody (fmt : JsFmt) (location : String) : NwsProc (List Content) := do
  let coords ← Proc.ofExcept (parseLocation location)
  let pointData ← getPointMetadata coords.1 coords.2
  let stationsData ← apiReq ("/gridpoints/" ++ pointData.gridId ++ "/" ++
    toString pointData.gridX ++ "," ++ toString pointData.gridY ++ "/stations")
  let stations := stationsData.asStations
  if stations.length == 0 then
    Proc.throwErr "No weather stations found for this location"
  else do
    let nearestStation := (stations.headD default).stationIdentifier
    let observationData ← apiReq ("/stations/" ++ nearestStation ++ "/observations/latest")
    pure [Content.text (currentWeatherMarkdown fmt coords.1 coords.2 nearestStation
      observationData.asObs)]

/-- The registered `get_current_weather` handler: the whole body is
wrapped in `try`/`catch`, the catch returning the single text block
`"Error: " + e.message` (every raised condition in the embedding carries
a message, matching the `e instanceof Error` branch of the source). -/
def getCurrentWeather (fmt : JsFmt) (location : String) : NwsProc (List Content) :=
  Proc.tryCatch (getCurrentWeatherBody fmt location)
    (fun m => pure [Content.text ("Error: " ++ m)])

/-! #### Tool: `get_weather_forecast` -/

/-- Embedding of `Array.prototype.slice(0, e)` on a list: a negative end counts from
the end of the array. -/
def jsSliceTo (xs : List α) (e : Int) : List α :=
  xs.take (if e < 0 then ((xs.length : Int) + e).toNat else e.toNat)

/-- One loop iteration of the forecast markdown (the truthiness guard on
`probabilityOfPrecipitation?.value` skips a 0 value; the wind line needs
both strings truthy, i.e. non-empty). -/
def forecastPeriodMd (p : ForecastPeriod) : String :=
  "## " ++ p.name ++ "\n\n" ++
  "**Temperature:** " ++ toString p.temperature ++ "°" ++ p.temperatureUnit ++ "\n" ++
  "**Conditions:** " ++ p.shortForecast ++ "\n" ++
  (match p.probabilityOfPrecipitation with
   | some v => if v = 0 then "" else "**Precipitation:** " ++ toString v ++ "% chance\n"
   | none => "") ++
  (match p.windSpeed, p.windDirection with
   | some w, some d =>
     if w = "" || d = "" then "" else "**Wind:** " ++ w ++ " " ++ d ++ "\n"
   | _, _ => "") ++
  "\n" ++ p.detailedForecast ++ "\n\n" ++
  "---\n\n"

/-- The markdown assembled by `get_weather_forecast`: header plus one
chunk per period of `periods.slice(0, days * 2)`. -/
def forecastMarkdown (fmt : JsFmt) (lat lng : String) (days : Int)
    (fd : Forecast) : String :=
  "# " ++ toString days ++ "-Day Weather Forecast\n\n" ++
  "**Location:** " ++ lat ++ ", " ++ lng ++ "\n" ++
  "**Updated:** " ++ fmt.locale fd.updateTime ++ "\n\n" ++
  String.join ((jsSliceTo fd.periods (days * 2)).map forecastPeriodMd)

/-- The `try` block of the `get_weather_forecast` handler. -/
def getWeatherForecastBody (fmt : JsFmt) (location : String) (days : Int) :
    NwsProc (List Content) := do
  let coords ← Proc.ofExcept (parseLocation location)
  let pointData ← getPointMetadata coords.1 coords.2
  let forecastData ← apiReq ("/gridpoints/" ++ pointData.gridId ++ "/" ++
    toString pointData.gridX ++ "," ++ toString pointData.gridY ++ "/forecast")
  pure [Content.text (forecastMarkdown fmt coords.1 coords.2 days forecastData.asForecast)]

/-- The registered `get_weather_forecast` handler (body in `try`/`catch`). -/
def getWeatherForecast (fmt : JsFmt) (location : String) (days : Int) :
    NwsProc (List Content) :=
  Proc.tryCatch (getWeatherForecastBody fmt location days)
    (fun m => pure [Content.text ("Error: " ++ m)])

/-! #### Tool: `get_weather_alerts` -/

/-- Embedding of the test `location.length === 2 && location.match(/^[A-Z]{2}$/)`. -/
def isStateCode (s : String) : Bool :=
  match s.toList with
  | [a, b] => a.isUpper && b.isUpper
  | _ => false

/-- One loop iteration of the alerts markdown. -/
def alertMd (fmt : JsFmt) (a : AlertProps) : String :=
  "## " ++ a.event ++ "\n\n" ++
  "**Severity:** " ++ a.severity ++ "\n" ++
  "**Urgency:** " ++ a.urgency ++ "\n" ++
  "**Areas:** " ++ a.areaDesc ++ "\n" ++
  (match a.effective with
   | some t => if t = "" then "" else "**Effective:** " ++ fmt.locale t ++ "\n"
   | none => "") ++
  (match a.expires with
   | some t => if t = "" then "" else "**Expires:** " ++ fmt.locale t ++ "\n"
   | none => "") ++
  "\n**Description:**\n" ++ a.description ++ "\n\n" ++
  (match a.instruction with
   | some t => if t = "" then "" else "**Instructions:**\n" ++ t ++ "\n\n"
   | none => "") ++
  "---\n\n"

/-- The `try` block of the `get_weather_alerts` handler: state codes hit
`/alerts/active/area/XX`, parsable coordinates hit
`/alerts/active?point=lat,lng`, and any other location falls back to the
unfiltered `/alerts/active` (the inner `catch` around `parseLocation`). -/
def getWeatherAlertsBody (fmt : JsFmt) (location severity : String) :
    NwsProc (List Content) := do
  let alertsEndpoint :=
    if isStateCode location then "/alerts/active" ++ "/area/" ++ location
    else
      match parseLocation location with
      | Except.ok c => "/alerts/active" ++ "?point=" ++ c.1 ++ "," ++ c.2
      | Except.error _ => "/alerts/active"
  let alertsData ← apiReq alertsEndpoint
  let alerts := alertsData.asAlerts
  let filteredAlerts :=
    if severity == "all" then alerts
    else alerts.filter (fun a => a.severity.toLower == severity)
  if filteredAlerts.length == 0 then
    pure [Content.text ("# Weather Alerts\n\nNo active weather alerts found for " ++
      location ++ ".")]
  else
    pure [Content.text ("# Weather Alerts for " ++ location ++ "\n\n" ++
      "Found " ++ toString filteredAlerts.length ++ " active alert(s)\n\n" ++
      String.join (filteredAlerts.map (alertMd fmt)))]

/-- The registered `get_weather_alerts` handler (body in `try`/`catch`). -/
def getWeatherAlerts (fmt : JsFmt) (location severity : String) :
    NwsProc (List Content) :=
  Proc.tryCatch (getWeatherAlertsBody fmt location severity)
    (fun m => pure [Content.text ("Error: " ++ m)])

/-! #### Tool: `find_weather_stations` -/

/-- One loop iteration of the stations markdown: the station header
lines, then the inner `try`/`catch` around the per-station
latest-observation call, degrading to the `"Not available"` placeholder
line when that secondary call fails. -/
def stationMd (fmt : JsFmt) (st : StationProps) : NwsProc String := do
  let base := "## " ++ st.name ++ "\n\n" ++
    "**Station ID:** " ++ st.stationIdentifier ++ "\n" ++
    (match st.elevation with
     | some v =>
       if v = 0 then "" else "**Elevation:** " ++ fmt.toFixed 0 (v * (328084 / 100000 : Rat)) ++ " ft\n"
     | none => "") ++
    (match st.distance with
     | some v =>
       if v = 0 then ""
       else "**Distance:** " ++ fmt.toFixed 1 (v / 1000 * (621371 / 1000000 : Rat)) ++ " miles\n"
     | none => "")
  let obsChunk ← Proc.tryCatch
    (do
      let obsData ← apiReq ("/stations/" ++ st.stationIdentifier ++ "/observations/latest")
      let o := obsData.asObs
      pure ("**Latest Report:** " ++ fmt.locale o.timestamp ++ "\n" ++
        (match o.temperature with
         | some (some v) => "**Temperature:** " ++ fmt.toFixed 1 (v * 9 / 5 + 32) ++ "°F\n"
         | _ => "")))
    (fun _ => pure "**Latest Report:** Not available\n")
  pure (base ++ obsChunk ++ "\n---\n\n")

/-- The `for` loop over the found stations, in order (one `stationMd`
iteration per station). -/
def stationChunks (fmt : JsFmt) : List StationProps → NwsProc (List String)
  | [] => pure []
  | st :: rest => do
    let c ← stationMd fmt st
    let cs ← stationChunks fmt rest
    pure (c :: cs)

/-- The `try` block of the `find_weather_stations` handler. -/
def findWeatherStationsBody (fmt : JsFmt) (location : String) (limit : Int) :
    NwsProc (List Content) := do
  let coords ← Proc.ofExcept (parseLocation location)
  let pointData ← getPointMetadata coords.1 coords.2
  let stationsData ← apiReq ("/gridpoints/" ++ pointData.gridId ++ "/" ++
    toString pointData.gridX ++ "," ++ toString pointData.gridY ++
    "/stations?limit=" ++ toString limit)
  let stations := stationsData.asStations
  if stations.length == 0 then
    pure [Content.text ("# Weather Stations\n\nNo weather stations found near " ++
      location ++ ".")]
  else do
    let chunks ← stationChunks fmt stations
    pure [Content.text ("# Weather Stations Near " ++ location ++ "\n\n" ++
      "Found " ++ toString stations.length ++ " station(s)\n\n" ++
      String.join chunks)]

/-- The registered `find_weather_stations` handler (body in `try`/`catch`). -/
def findWeatherStations (fmt : JsFmt) (location : String) (limit : Int) :
    NwsProc (List Content) :=
  Proc.tryCatch (findWeatherStationsBody fmt location limit)
    (fun m => pure [Content.text ("Error: " ++ m)])

/-! ### Google Maps adapter (`google-maps/src/index.ts`)

A request is a base URL plus its query parameters in append order (the
percent-encoding performed by `URLSearchParams` is left implicit by
keeping the parameters structured).  Only the geocoding pipeline is
embedded; the registered `maps_geocode` handler performs no catching of
its own — `handleGeocode`'s thrown error escapes the handler. -/

/-- A URL with its query parameters in the order they were appended. -/
structure UrlReq where
  base : String
  params : List (String × String)
  deriving DecidableEq

/-- The `geometry.location` of a geocode result (raw doubles, only ever
passed through to the serialized output). -/
structure GeoLocation where
  lat : Rat
  lng : Rat
  deriving DecidableEq, Inhabited

/-- One element of `GeocodeResponse.results` (fields the handler reads). -/
structure GeoResult where
  place_id : String
  formatted_address : String
  geometry_location : GeoLocation
  deriving DecidableEq, Inhabited

/-- The `GeocodeResponse` interface: `status`, optional `error_message`, `results`. -/
structure GeocodeResp where
  status : String
  error_message : Option String
  results : List GeoResult
  deriving DecidableEq, Inhabited

/-- The value `handleGeocode` returns on success. -/
structure GeoOut where
  location : GeoLocation
  formatted_address : String
  place_id : String
  deriving DecidableEq, Inhabited

/-- A maps-handler computation: the stub returns either a parsed
`GeocodeResponse` or the message of a transport failure raised by
`fetch` (which nothing in this adapter catches). -/
abbrev MapsProc (α : Type) : Type := Proc UrlReq (Except String GeocodeResp) α

/-- JavaScript `a || b` on an optional string: `undefined` and the empty
string are falsy. -/
def jsOrStr (a : Option String) (b : String) : String :=
  match a with
  | some m => if m = "" then b else m
  | none => b

/-- Embedding of `handleGeocode`: one upstream request, a thrown
`"Geocoding failed: ..."` on any non-`OK` status, the first result's
fields otherwise (the source indexes `results[0]` without a check;
the out-of-range default is never reached when the status is `OK` in the
stubs used below). -/
def handleGeocode (key address : String) : MapsProc GeoOut := do
  let data ← Proc.call id
    ⟨"https://maps.googleapis.com/maps/api/geocode/json", [("address", address), ("key", key)]⟩
  if data.status != "OK" then
    Proc.throwErr ("Geocoding failed: " ++ jsOrStr data.error_message data.status)
  else
    let r := data.results.headD default
    pure ⟨r.geometry_location, r.formatted_address, r.place_id⟩

/-- The registered `maps_geocode` handler: it awaits `handleGeocode` and
wraps the result in one text block — with no `try`/`catch`, so a failure
of `handleGeocode` propagates out of the handler.  `jshow` abstracts
`JSON.stringify(result, null, 2)`. -/
def mapsGeocodeHandler (jshow : GeoOut → String) (key address : String) :
    MapsProc (List Content) := do
  let result ← handleGeocode key address
  pure [Content.text (jshow result)]

/-! ### GitHub adapter (`github/src/tools/search.ts`, pull-request tools)

An upstream request is a typed octokit call; the stub returns either the
serialized `JSON.stringify(response.data)` payload of a successful call
or the `.message` of a thrown request error. -/

/-- The octokit calls issued by the embedded GitHub tools. -/
inductive GhCall where
  | searchRepos (q : String) (per_page : Int) (page : Int)
  deriving DecidableEq

/-- A GitHub-handler computation. -/
abbrev GhProc (α : Type) : Type := Proc GhCall (Except String String) α

/-- The `try` block of the `search_repositories` handler. -/
def searchRepositoriesBody (query : String) (per_page page : Int) :
    GhProc (List Content) := do
  let data ← Proc.call id (GhCall.searchRepos query per_page page)
  pure [Content.text data]

/-- The registered `search_repositories` handler (body in `try`/`catch`,
the catch returning `"Error: " + e.message`). -/
def searchRepositories (query : String) (per_page page : Int) :
    GhProc (List Content) :=
  Proc.tryCatch (searchRepositoriesBody query per_page page)
    (fun m => pure [Content.text ("Error: " ++ m)])

/-- The validated argument record of `update_pull_request_branch`. -/
structure UpdatePrBranchArgs where
  owner : String
  repo : String
  pullNumber : Int
  expectedHeadSha : Option String
  deriving DecidableEq

/-- The validated argument record of `get_pull_request_comments`. -/
structure GetPrCommentsArgs where
  owner : String
  repo : String
  pullNumber : Int
  deriving DecidableEq

/-- The registered `update_pull_request_branch` handler: the source's
callback is `async () => ...` — it ignores its arguments, touches no
upstream and returns the fixed block. -/
def updatePullRequestBranch (_args : UpdatePrBranchArgs) : GhProc (List Content) :=
  pure [Content.text "Not implemented yet"]

/-- The registered `get_pull_request_comments` handler (same stub shape). -/
def getPullRequestComments (_args : GetPrCommentsArgs) : GhProc (List Content) :=
  pure [Content.text "Not implemented yet"]

/-! ### The tool-registration and invocation contract

The declarative input schemas live in the sources, but the machinery
that interprets them (the zod validators and the MCP server's registry
and call dispatch) is not under `src/`; it is modelled from §3, §4.1 and
§4.2 of the specification. -/

/-- Modelled from the spec: the parameter values of §4.2's validated
record (the zod value universe used by the declared schemas is not under
`src/`). -/
inductive Value where
  | str (s : String)
  | num (n : Int)
  | bool (b : Bool)
  | arr (xs : List Value)

/-- Modelled from the spec: §9's tagged-variant schema types
(`String | Number | Boolean | Enum[...] | Array[T]`). -/
inductive PType where
  | string
  | number
  | boolean
  | enumOf (cs : List String)
  | arrOf (t : PType)

/-- The expectation named in a validation-failure message. -/
def PType.expStr : PType → String
  | PType.string => "a string"
  | PType.number => "a number"
  | PType.boolean => "a boolean"
  | PType.enumOf cs => "one of " ++ String.intercalate ", " cs
  | PType.arrOf t => "an array of " ++ t.expStr

/-- Modelled from the spec: §3's per-parameter declaration — a semantic
type, optionality and an optional default. -/
structure ParamSpec where
  ty : PType
  optional : Bool
  dflt : Option Value

/-- Modelled from the spec: §3's `inputSchema`, parameters keyed by name. -/
abbrev Schema := List (String × ParamSpec)

/-- Does a value conform to a declared semantic type (enum values must be
members of the declared literal set)? -/
def typeCheck : PType → Value → Bool
  | PType.string, Value.str _ => true
  | PType.number, Value.num _ => true
  | PType.boolean, Value.bool _ => true
  | PType.enumOf cs, Value.str s => cs.contains s
  | PType.arrOf t, Value.arr xs => xs.all (fun v => typeCheck t v)
  | _, _ => false

/-- Modelled from the spec: §4.2 step 1 (the zod validation run by the
server for each declared schema is not under `src/`).  Required missing,
type mismatch and out-of-set enum values fail with a message naming the
parameter and the expectation; absent optionals with a declared default
are substituted; parameters not named in the schema are ignored. -/
def validate (sch : Schema) (input : List (String × Value)) :
    Except String (List (String × Value)) :=
  match sch with
  | [] => Except.ok []
  | (name, ps) :: restSchema =>
    match input.lookup name with
    | some v =>
      if typeCheck ps.ty v then
        (validate restSchema input).map (fun r => (name, v) :: r)
      else
        Except.error ("Invalid value for parameter " ++ name ++ ": expected " ++ ps.ty.expStr)
    | none =>
      match ps.dflt with
      | some d => (validate restSchema input).map (fun r => (name, d) :: r)
      | none =>
        if ps.optional then validate restSchema input
        else Except.error ("Missing required parameter " ++ name ++ ": expected " ++ ps.ty.expStr)

/-- The observable outcome of one tool invocation: the upstream requests
issued, whether the handler ran, and the uniform result shape. -/
structure Invocation (ρ : Type) where
  calls : List ρ
  handlerRan : Bool
  result : List Content

/-- Modelled from the spec: §4.2's Invocation Envelope (the MCP server's
call dispatch is not under `src/`).  Validation failure produces the
failure shape without running the handler; otherwise the handler runs on
the validated record and any failure it raises degrades to the single
`"Error: " + message` text block. -/
def envelope (sch : Schema) (h : List (String × Value) → Proc ρ σ (List Content))
    (raw : List (String × Value)) (env : ρ → σ) : Invocation ρ :=
  match validate sch raw with
  | Except.error e => ⟨[], false, [Content.text ("Error: " ++ e)]⟩
  | Except.ok record =>
    match h record env [] with
    | (log, Except.ok cs) => ⟨log, true, cs⟩
    | (log, Except.error m) => ⟨log, true, [Content.text ("Error: " ++ m)]⟩

/-- Modelled from the spec: §3's Tool Definition (name is the registry
key; the handler here is the pure shape needed for registry theorems). -/
structure ToolDef where
  description : String
  inputSchema : Schema
  handler : List (String × Value) → List Content

/-- Modelled from the spec: §2's Tool Registry, an ordered name-keyed
mapping. -/
abbrev Registry := List (String × ToolDef)

/-- Modelled from the spec: §4.1 `register` — fails with
`DuplicateToolError` when the name already exists, otherwise appends. -/
def register (r : Registry) (name : String) (d : ToolDef) : Except String Registry :=
  if (r.lookup name).isSome then Except.error ("DuplicateToolError: " ++ name)
  else Except.ok (r ++ [(name, d)])

/-- One startup-time registration step: a failed `register` leaves the
registry unchanged. -/
def registerStep (r : Registry) (nd : String × ToolDef) : Registry :=
  match register r nd.1 nd.2 with
  | Except.ok r2 => r2
  | Except.error _ => r

/-- The names present in a registry, in registration order. -/
def registryNames (r : Registry) : List String := r.map Prod.fst

/-! ### Declared input schemas of the cited tools (from the sources) -/

/-- Schema of `maps_directions`: `origin`/`destination` required strings,
`mode` an optional enum over the four travel modes. -/
def mapsDirectionsSchema : Schema :=
  [("origin", ⟨PType.string, false, none⟩),
   ("destination", ⟨PType.string, false, none⟩),
   ("mode", ⟨PType.enumOf ["driving", "walking", "bicycling", "transit"], true, none⟩)]

/-- Schema of `maps_distance_matrix`: string arrays plus the same
optional mode enum. -/
def mapsDistanceMatrixSchema : Schema :=
  [("origins", ⟨PType.arrOf PType.string, false, none⟩),
   ("destinations", ⟨PType.arrOf PType.string, false, none⟩),
   ("mode", ⟨PType.enumOf ["driving", "walking", "bicycling", "transit"], true, none⟩)]

/-- Schema of `get_weather_forecast`: required `location`, `days`
optional with default `7`. -/
def weatherForecastSchema : Schema :=
  [("location", ⟨PType.string, false, none⟩),
   ("days", ⟨PType.number, true, some (Value.num 7)⟩)]

/-- Schema of `search_repositories`: required `query`, `per_page`
defaulting to `30`, `page` defaulting to `1`. -/
def searchReposSchema : Schema :=
  [("query", ⟨PType.string, false, none⟩),
   ("per_page", ⟨PType.number, true, some (Value.num 30)⟩),
   ("page", ⟨PType.number, true, some (Value.num 1)⟩)]

/-! ## Theorems -/

/-- A trivial formatter record, used to instantiate the abstract
JavaScript formatters at concrete inputs. -/
def fmtConst : JsFmt := ⟨fun _ _ => "", fun s => s, fun _ => ""⟩

/-! ### Claim C10 -/

/-- C10: the two pull-request stub tools `update_pull_request_branch` and
`get_pull_request_comments` ignore their (schema-accepted) input, issue
zero upstream calls and always return the single success text block
`"Not implemented yet"`. -/
theorem prStubToolsFixedResultNoCalls :
    ∀ (a : UpdatePrBranchArgs) (b : GetPrCommentsArgs)
      (env : GhCall → Except String String),
      (updatePullRequestBranch a).run env
        = ([], Except.ok [Content.text "Not implemented yet"]) ∧
      (getPullRequestComments b).run env
        = ([], Except.ok [Content.text "Not implemented yet"]) := by
  intro a b env
  exact ⟨rfl, rfl⟩

/-! ### Claim C2 -/

/-- C2: invoking `maps_directions` or `maps_distance_matrix` with
`mode:"flying"` — outside the declared enum — yields the failure-shaped
result naming the parameter and the expectation, with the handler never
invoked and no upstream call issued, for every possible handler. -/
theorem enumRejectionBlocksHandlerAndUpstream :
    ∀ (ρ σ : Type) (h : List (String × Value) → Proc ρ σ (List Content))
      (env : ρ → σ) (o d : String),
      envelope mapsDirectionsSchema h
        [("origin", Value.str o), ("destination", Value.str d), ("mode", Value.str "flying")] env
        = ⟨[], false,
           [Content.text "Error: Invalid value for parameter mode: expected one of driving, walking, bicycling, transit"]⟩ ∧
      envelope mapsDistanceMatrixSchema h
        [("origins", Value.arr [Value.str o]), ("destinations", Value.arr [Value.str d]),
         ("mode", Value.str "flying")] env
        = ⟨[], false,
           [Content.text "Error: Invalid value for parameter mode: expected one of driving, walking, bicycling, transit"]⟩ := by
  intro ρ σ h env o d
  exact ⟨rfl, rfl⟩

/-! ### Claim C6 -/

/-- C6: omitted optional parameters with a declared default are
substituted before the handler runs — the `get_weather_forecast` handler
observes `days = 7` and the `search_repositories` handler observes
`per_page = 30` and `page = 1` when those parameters are absent from the
raw input. -/
theorem declaredDefaultsSubstituted :
    ∀ (l q : String) (ρ σ : Type) (env : ρ → σ)
      (f g : List (String × Value) → List Content),
      validate weatherForecastSchema [("location", Value.str l)]
        = Except.ok [("location", Value.str l), ("days", Value.num 7)] ∧
      validate searchReposSchema [("query", Value.str q)]
        = Except.ok [("query", Value.str q), ("per_page", Value.num 30), ("page", Value.num 1)] ∧
      envelope weatherForecastSchema (fun r => pure (f r)) [("location", Value.str l)] env
        = ⟨[], true, f [("location", Value.str l), ("days", Value.num 7)]⟩ ∧
      envelope searchReposSchema (fun r => pure (g r)) [("query", Value.str q)] env
        = ⟨[], true, g [("query", Value.str q), ("per_page", Value.num 30), ("page", Value.num 1)]⟩ := by
  intro l q ρ σ env f g
  exact ⟨rfl, rfl, rfl, rfl⟩

/-! ### Claim C1 -/

/-- C1 (counterexample): the registered `maps_geocode` handler has no
`try`/`catch`; at a stub upstream answering with status `ZERO_RESULTS`,
the invocation's outcome is the propagated raised error — not the
success-shaped `"Error: " + message` text block the claim asserts for
every registered tool. -/
theorem mapsGeocodeFailurePropagatesRaw :
    (mapsGeocodeHandler (fun _ => "") "key0" "nowhere").run
        (fun _ => Except.ok ⟨"ZERO_RESULTS", none, []⟩)
      = ([⟨"https://maps.googleapis.com/maps/api/geocode/json",
           [("address", "nowhere"), ("key", "key0")]⟩],
         Except.error "Geocoding failed: ZERO_RESULTS") := rfl

/-- C1 (amended): for every registered tool whose handler wraps its body
in a `catch` — all the weather tools and the GitHub tools — a failure
raised anywhere in the body degrades to the single success-shaped text
block `"Error: " + message`; the maps handlers instead let the failure
propagate out of the tool call. -/
theorem handlerFailuresDegradeToErrorTextBlock :
    ∀ (fmt : JsFmt) (location severity : String) (days limit : Int)
      (q : String) (pp pg : Int)
      (envW : String → HttpOutcome) (envG : GhCall → Except String String)
      (logW : List String) (logG : List GhCall) (m : String),
      ((getCurrentWeatherBody fmt location).run envW = (logW, Except.error m) →
        (getCurrentWeather fmt location).run envW
          = (logW, Except.ok [Content.text ("Error: " ++ m)])) ∧
      ((getWeatherForecastBody fmt location days).run envW = (logW, Except.error m) →
        (getWeatherForecast fmt location days).run envW
          = (logW, Except.ok [Content.text ("Error: " ++ m)])) ∧
      ((getWeatherAlertsBody fmt location severity).run envW = (logW, Except.error m) →
        (getWeatherAlerts fmt location severity).run envW
          = (logW, Except.ok [Content.text ("Error: " ++ m)])) ∧
      ((findWeatherStationsBody fmt location limit).run envW = (logW, Except.error m) →
        (findWeatherStations fmt location limit).run envW
          = (logW, Except.ok [Content.text ("Error: " ++ m)])) ∧
      ((searchRepositoriesBody q pp pg).run envG = (logG, Except.error m) →
        (searchRepositories q pp pg).run envG
          = (logG, Except.ok [Content.text ("Error: " ++ m)])) := by
  intro fmt location severity days limit q pp pg envW envG logW logG m
  refine ⟨?_, ?_, ?_, ?_, ?_⟩ <;> intro h <;>
    exact Proc.run_tryCatch_error _ _ _ _ _ _ h

/-- Witness for C1 (amended): concrete failing invocations of each
catching handler, each returning the `"Error: " + message` block. -/
theorem handlerFailuresDegradeToErrorTextBlock_witness :
    (getCurrentWeather fmtConst "x").run (fun _ => HttpOutcome.transport "fetch failed")
      = ([], Except.ok [Content.text ("Error: Location parsing not yet implemented for \"x\". Please provide coordinates in \"latitude,longitude\" format (e.g., \"40.7128,-74.0060\")")]) ∧
    (getWeatherForecast fmtConst "x" 7).run (fun _ => HttpOutcome.transport "fetch failed")
      = ([], Except.ok [Content.text ("Error: Location parsing not yet implemented for \"x\". Please provide coordinates in \"latitude,longitude\" format (e.g., \"40.7128,-74.0060\")")]) ∧
    (getWeatherAlerts fmtConst "x" "all").run (fun _ => HttpOutcome.transport "fetch failed")
      = (["/alerts/active"], Except.ok [Content.text ("Error: " ++ connectMsg)]) ∧
    (findWeatherStations fmtConst "x" 10).run (fun _ => HttpOutcome.transport "fetch failed")
      = ([], Except.ok [Content.text ("Error: Location parsing not yet implemented for \"x\". Please provide coordinates in \"latitude,longitude\" format (e.g., \"40.7128,-74.0060\")")]) ∧
    (searchRepositories "q" 30 1).run (fun _ => Except.error "boom")
      = ([GhCall.searchRepos "q" 30 1], Except.ok [Content.text ("Error: " ++ "boom")]) := by
  refine ⟨?_, ?_, ?_, ?_, ?_⟩
  · exact (handlerFailuresDegradeToErrorTextBlock fmtConst "x" "all" 7 10 "q" 30 1
      (fun _ => HttpOutcome.transport "fetch failed") (fun _ => Except.error "boom") [] []
      "Location parsing not yet implemented for \"x\". Please provide coordinates in \"latitude,longitude\" format (e.g., \"40.7128,-74.0060\")").1 (by rfl)
  · exact (handlerFailuresDegradeToErrorTextBlock fmtConst "x" "all" 7 10 "q" 30 1
      (fun _ => HttpOutcome.transport "fetch failed") (fun _ => Except.error "boom") [] []
      "Location parsing not yet implemented for \"x\". Please provide coordinates in \"latitude,longitude\" format (e.g., \"40.7128,-74.0060\")").2.1 (by rfl)
  · exact (handlerFailuresDegradeToErrorTextBlock fmtConst "x" "all" 7 10 "q" 30 1
      (fun _ => HttpOutcome.transport "fetch failed") (fun _ => Except.error "boom")
      ["/alerts/active"] [] connectMsg).2.2.1 (by rfl)
  · exact (handlerFailuresDegradeToErrorTextBlock fmtConst "x" "all" 7 10 "q" 30 1
      (fun _ => HttpOutcome.transport "fetch failed") (fun _ => Except.error "boom") [] []
      "Location parsing not yet implemented for \"x\". Please provide coordinates in \"latitude,longitude\" format (e.g., \"40.7128,-74.0060\")").2.2.2.1 (by rfl)
  · exact (handlerFailuresDegradeToErrorTextBlock fmtConst "x" "all" 7 10 "q" 30 1
      (fun _ => HttpOutcome.transport "fetch failed") (fun _ => Except.error "boom") []
      [GhCall.searchRepos "q" 30 1] "boom").2.2.2.2 (by rfl)

/-! ### Claim C4 -/

/-- C4 (counterexample): a 503 upstream response is mapped to the
generic `"Weather API error: ..."` message, not to the
service-unavailable-specific one — only status 500 gets the specific
message, so "every 5xx status" fails. -/
theorem weatherApi503GenericMessage :
    weatherApiRequestE (HttpOutcome.resp 503 "Service Unavailable" (NwsResp.alerts []))
      = Except.error "Weather API error: 503 Service Unavailable" ∧
    "Weather API error: 503 Service Unavailable"
      ≠ "Weather service temporarily unavailable" := by
  exact ⟨rfl, by decide⟩

/-- C4 (amended): `weatherApiRequest` maps 404 to the not-found message
and exactly 500 (not every 5xx) to the service-unavailable message;
every other non-2xx status gets the generic status-bearing message
(unchanged by the catch when it does not contain `"fetch"`), and a
transport failure whose raised message contains `"fetch"` is rewritten
to the distinctly worded connectivity message. -/
theorem weatherApiStatusMessageMapping :
    ∀ (stx : String) (b : NwsResp) (st : Nat) (m : String),
      weatherApiRequestE (HttpOutcome.resp 404 stx b)
        = Except.error "Location not found or no data available" ∧
      weatherApiRequestE (HttpOutcome.resp 500 stx b)
        = Except.error "Weather service temporarily unavailable" ∧
      (respOk st = false → st ≠ 404 → st ≠ 500 →
        strContains ("Weather API error: " ++ toString st ++ " " ++ stx) "fetch" = false →
        weatherApiRequestE (HttpOutcome.resp st stx b)
          = Except.error ("Weather API error: " ++ toString st ++ " " ++ stx)) ∧
      (strContains m "fetch" = true →
        weatherApiRequestE (HttpOutcome.transport m) = Except.error connectMsg) ∧
      connectMsg ≠ "Location not found or no data available" ∧
      connectMsg ≠ "Weather service temporarily unavailable" := by
  intro stx b st m
  refine ⟨rfl, rfl, ?_, ?_, by decide, by decide⟩
  · intro hok h404 h500 hfetch
    have e404 : (st == 404) = false := beq_eq_false_iff_ne.mpr h404
    have e500 : (st == 500) = false := beq_eq_false_iff_ne.mpr h500
    simp only [weatherApiRequestE, hok, e404, e500, Bool.not_false, if_true,
      Bool.false_eq_true, if_false, hfetch]
  · intro hf
    simp only [weatherApiRequestE, hf, if_true]

/-! ### Shared association-list lemmas -/

theorem lookup_append_none {α : Type} (n : String) (l₁ l₂ : List (String × α))
    (h : List.lookup n l₁ = none) :
    List.lookup n (l₁ ++ l₂) = List.lookup n l₂ := by
  induction l₁ with
  | nil => rfl
  | cons p t ih =>
    cases p with
    | mk k v =>
      simp only [List.cons_append, List.lookup] at h ⊢
      cases hk : (n == k) with
      | true => rw [hk] at h; exact Option.noConfusion h
      | false => rw [hk] at h; exact ih h

theorem lookup_singleton_self {α : Type} (n : String) (v : α) :
    List.lookup n [(n, v)] = some v := by
  simp [List.lookup]

theorem lookup_none_not_mem {α : Type} (n : String) (l : List (String × α))
    (h : List.lookup n l = none) : n ∉ l.map Prod.fst := by
  induction l with
  | nil => simp
  | cons p t ih =>
    cases p with
    | mk k v =>
      simp only [List.lookup] at h
      cases hk : (n == k) with
      | true => rw [hk] at h; exact Option.noConfusion h
      | false =>
        rw [hk] at h
        simp only [List.map_cons, List.mem_cons]
        rintro (he | hm)
        · exact absurd (beq_iff_eq.mpr he) (by simp [hk])
        · exact ih h hm

theorem lookup_snoc_ne {α : Type} (n k : String) (v : α) (l : List (String × α))
    (h : n ≠ k) :
    List.lookup n (l ++ [(k, v)]) = List.lookup n l := by
  induction l with
  | nil =>
    simp only [List.nil_append, List.lookup, beq_eq_false_iff_ne.mpr h]
  | cons p t ih =>
    cases p with
    | mk k' v' =>
      simp only [List.cons_append, List.lookup]
      cases hk : (n == k') with
      | true => rfl
      | false => exact ih

/-! ### Claim C5 -/

/-- Registration steps preserve name uniqueness. -/
theorem registerStep_preserves_nodup (r : Registry) (nd : String × ToolDef)
    (h : (registryNames r).Nodup) : (registryNames (registerStep r nd)).Nodup := by
  unfold registerStep register
  by_cases hs : (List.lookup nd.1 r).isSome
  · simp only [hs, if_true]
    exact h
  · simp only [hs, Bool.false_eq_true, if_false]
    have hnone : List.lookup nd.1 r = none := Option.not_isSome_iff_eq_none.mp hs
    have hmem : nd.1 ∉ registryNames r := lookup_none_not_mem _ _ hnone
    unfold registryNames at h hmem ⊢
    rw [List.map_append]
    simp [List.nodup_append, h, hmem]

/-- C5: a second `register` under an already-used name fails with
`DuplicateToolError` and the registry still maps that name to the first
definition; moreover every registry reachable by a sequence of
registration steps from the empty registry has pairwise-distinct tool
names. -/
theorem registerDuplicateFailsKeepsFirst :
    (∀ (r : Registry) (name : String) (d1 d2 : ToolDef) (r' : Registry),
        register r name d1 = Except.ok r' →
        register r' name d2 = Except.error ("DuplicateToolError: " ++ name) ∧
        List.lookup name r' = some d1) ∧
    (∀ ops : List (String × ToolDef),
        (registryNames (ops.foldl registerStep [])).Nodup) := by
  constructor
  · intro r name d1 d2 r' hreg
    unfold register at hreg
    by_cases hs : (List.lookup name r).isSome
    · rw [if_pos hs] at hreg
      exact absurd hreg (by simp)
    · rw [if_neg hs] at hreg
      have hr' : r ++ [(name, d1)] = r' := by
        injection hreg
      have hnone : List.lookup name r = none := Option.not_isSome_iff_eq_none.mp hs
      have hlook : List.lookup name r' = some d1 := by
        rw [← hr', lookup_append_none _ _ _ hnone, lookup_singleton_self]
      refine ⟨?_, hlook⟩
      unfold register
      rw [if_pos (by simp [hlook])]
  · intro ops
    have hgen : ∀ (r : Registry), (registryNames r).Nodup →
        (registryNames (ops.foldl registerStep r)).Nodup := by
      induction ops with
      | nil => intro r h; exact h
      | cons op t ih =>
        intro r h
        exact ih _ (registerStep_preserves_nodup r op h)
    exact hgen [] (by simp [registryNames])

/-- Witness for C5: registering `"t"` twice — the second registration
fails and the registry still holds the first definition. -/
theorem registerDuplicateFailsKeepsFirst_witness :
    register [("t", ToolDef.mk "first" [] (fun _ => []))] "t"
        (ToolDef.mk "second" [] (fun _ => []))
      = Except.error ("DuplicateToolError: " ++ "t") ∧
    List.lookup "t" [("t", ToolDef.mk "first" [] (fun _ => []))]
      = some (ToolDef.mk "first" [] (fun _ => [])) :=
  registerDuplicateFailsKeepsFirst.1 [] "t"
    (ToolDef.mk "first" [] (fun _ => [])) (ToolDef.mk "second" [] (fun _ => []))
    [("t", ToolDef.mk "first" [] (fun _ => []))] rfl

/-! ### Claim C8 -/

/-- Validation is insensitive to an appended parameter whose name is not
declared in the schema. -/
theorem validate_snoc_undeclared (sch : Schema) (input : List (String × Value))
    (k : String) (v : Value) (h : k ∉ sch.map Prod.fst) :
    validate sch (input ++ [(k, v)]) = validate sch input := by
  induction sch with
  | nil => rfl
  | cons p rest ih =>
    cases p with
    | mk name ps =>
      simp only [List.map_cons, List.mem_cons] at h
      push_neg at h
      have hne : name ≠ k := fun e => h.1 e.symm
      have hrest := ih h.2
      simp only [validate, lookup_snoc_ne name k v input hne, hrest]

/-- C8: invoking any tool with one extra parameter not declared in its
input schema produces an invocation outcome identical to the call
without that parameter — same upstream calls, same handler execution,
same result. -/
theorem undeclaredExtraParamIgnored :
    ∀ (ρ σ : Type) (sch : Schema)
      (h : List (String × Value) → Proc ρ σ (List Content))
      (input : List (String × Value)) (k : String) (v : Value) (env : ρ → σ),
      k ∉ sch.map Prod.fst →
      envelope sch h (input ++ [(k, v)]) env = envelope sch h input env := by
  intro ρ σ sch h input k v env hk
  unfold envelope
  rw [validate_snoc_undeclared sch input k v hk]

/-- Witness for C8: `search_repositories` invoked with an extra
undeclared field `foo` behaves identically to the call without it. -/
theorem undeclaredExtraParamIgnored_witness :
    envelope searchReposSchema (fun _ => (pure [] : Proc Unit Unit (List Content)))
        ([("query", Value.str "rust")] ++ [("foo", Value.num 1)]) (fun _ => ())
      = envelope searchReposSchema (fun _ => (pure [] : Proc Unit Unit (List Content)))
          [("query", Value.str "rust")] (fun _ => ()) :=
  undeclaredExtraParamIgnored Unit Unit searchReposSchema
    (fun _ => pure []) [("query", Value.str "rust")] "foo" (Value.num 1)
    (fun _ => ()) (by decide)

/-- Witness for C4 (amended): the four mapping branches evaluated at
concrete statuses and a concrete transport failure. -/
theorem weatherApiStatusMessageMapping_witness :
    weatherApiRequestE (HttpOutcome.resp 404 "Not Found" (NwsResp.alerts []))
      = Except.error "Location not found or no data available" ∧
    weatherApiRequestE (HttpOutcome.resp 500 "Internal Server Error" (NwsResp.alerts []))
      = Except.error "Weather service temporarily unavailable" ∧
    weatherApiRequestE (HttpOutcome.resp 403 "Forbidden" (NwsResp.alerts []))
      = Except.error ("Weather API error: " ++ toString 403 ++ " " ++ "Forbidden") ∧
    weatherApiRequestE (HttpOutcome.transport "fetch failed") = Except.error connectMsg := by
  refine ⟨?_, ?_, ?_, ?_⟩
  · exact (weatherApiStatusMessageMapping "Not Found" (NwsResp.alerts []) 403 "fetch failed").1
  · exact (weatherApiStatusMessageMapping "Internal Server Error" (NwsResp.alerts []) 403 "fetch failed").2.1
  · exact (weatherApiStatusMessageMapping "Forbidden" (NwsResp.alerts []) 403 "fetch failed").2.2.1
      (by decide) (by decide) (by decide) (by decide)
  · exact (weatherApiStatusMessageMapping "Forbidden" (NwsResp.alerts []) 403 "fetch failed").2.2.2.1
      (by decide)

/-! ### Claim C3 -/

/-- The stub forecast for grid `OKX 32,34`: two periods. -/
def stubForecast : Forecast :=
  ⟨"2025-01-01T12:00:00+00:00",
   [⟨"Tonight", 45, "F", "Mostly Clear", "Mostly clear, with a low around 45.",
     some "5 mph", some "NW", none⟩,
    ⟨"Wednesday", 62, "F", "Sunny", "Sunny, with a high near 62.",
     some "10 mph", some "W", some 20⟩]⟩

/-- The stub upstream of the location-resolution scenario: point
metadata `OKX 32,34` for the coordinates, a two-period forecast for that
grid, transport failure anywhere else. -/
def forecastStub : String → HttpOutcome := fun ep =>
  if ep = "/points/40.7128,-74.006" then
    HttpOutcome.resp 200 "OK" (NwsResp.points ⟨"OKX", 32, 34, "OKX", "", "", ""⟩)
  else if ep = "/gridpoints/OKX/32,34/forecast" then
    HttpOutcome.resp 200 "OK" (NwsResp.forecast stubForecast)
  else HttpOutcome.transport "fetch failed"

/-- C3: invoking `get_weather_forecast` with
`{location:"40.7128,-74.0060", days:1}` against the stub issues exactly
two upstream calls in order — point-metadata resolution, then the
forecast fetch for the resolved grid — and the result is a single
success text block containing both period names. -/
theorem forecastChainTwoCallsInOrder :
    ∀ fmt : JsFmt,
      ((getWeatherForecast fmt "40.7128,-74.0060" 1).run forecastStub).1
        = ["/points/40.7128,-74.006", "/gridpoints/OKX/32,34/forecast"] ∧
      resultTextContains ((getWeatherForecast fmt "40.7128,-74.0060" 1).run forecastStub).2
        "Tonight" = true ∧
      resultTextContains ((getWeatherForecast fmt "40.7128,-74.0060" 1).run forecastStub).2
        "Wednesday" = true := by
  intro fmt
  have hrun : (getWeatherForecast fmt "40.7128,-74.0060" 1).run forecastStub
      = (["/points/40.7128,-74.006", "/gridpoints/OKX/32,34/forecast"],
         Except.ok [Content.text (forecastMarkdown fmt "40.7128" "-74.006" 1 stubForecast)]) := rfl
  refine ⟨by rw [hrun], ?_, ?_⟩
  · rw [hrun]
    simp only [resultTextContains, forecastMarkdown]
    apply strContains_append_right
    decide
  · rw [hrun]
    simp only [resultTextContains, forecastMarkdown]
    apply strContains_append_right
    decide

/-- An `if` whose branches are both `pure` computations, applied to an
environment and a log. -/
theorem proc_ite_pure_app (c : Prop) [Decidable c] (a b : α) (env : ρ → σ) (log : List ρ) :
    (if c then (pure a : Proc ρ σ α) else pure b) env log
      = (log, Except.ok (if c then a else b)) := by
  by_cases h : c <;> simp [h]

/-- A success outcome holding either of two single text blocks has the
uniform success shape. -/
theorem resultIsSuccessText_ok_ite (c : Prop) [Decidable c] (a b : String) :
    resultIsSuccessText (Except.ok (if c then [Content.text a] else [Content.text b])) = true := by
  by_cases h : c <;> simp [h, resultIsSuccessText]

/-! ### Claim C9 -/

/-- C9: for every location that is neither a two-uppercase-letter state
code nor a coordinate pair, `get_weather_alerts` does not fail — it
silently queries the unfiltered nationwide `/alerts/active` endpoint
(its only upstream call) and returns the success shape for whatever that
yields, for every severity filter and every alert list. -/
theorem alertsFallbackNationwide :
    ∀ (fmt : JsFmt) (env : String → HttpOutcome) (location severity stx : String)
      (al : List AlertProps),
      isStateCode location = false →
      matchCoord location = none →
      env "/alerts/active" = HttpOutcome.resp 200 stx (NwsResp.alerts al) →
      ((getWeatherAlerts fmt location severity).run env).1 = ["/alerts/active"] ∧
      resultIsSuccessText ((getWeatherAlerts fmt location severity).run env).2 = true := by
  intro fmt env location severity stx al h1 h2 h3
  have e1 : weatherApiRequestE (env "/alerts/active") = Except.ok (NwsResp.alerts al) := by
    rw [h3]
    rfl
  constructor
  · simp only [getWeatherAlerts, getWeatherAlertsBody, parseLocation, apiReq, Proc.run,
      proc_tryCatch_app, proc_bind_app, proc_call_app, proc_pure_app, proc_ite_pure_app,
      h1, h2, e1, NwsResp.asAlerts, Bool.false_eq_true, if_false, List.nil_append]
  · simp only [getWeatherAlerts, getWeatherAlertsBody, parseLocation, apiReq, Proc.run,
      proc_tryCatch_app, proc_bind_app, proc_call_app, proc_pure_app, proc_ite_pure_app,
      h1, h2, e1, NwsResp.asAlerts, Bool.false_eq_true, if_false, List.nil_append]
    exact resultIsSuccessText_ok_ite _ _ _

/-- Witness for C9: the non-state, non-coordinate location `"Chicago"`
falls back to the nationwide alerts query and yields a success result. -/
theorem alertsFallbackNationwide_witness :
    ((getWeatherAlerts fmtConst "Chicago" "all").run
        (fun ep => if ep = "/alerts/active"
          then HttpOutcome.resp 200 "OK" (NwsResp.alerts [])
          else HttpOutcome.transport "fetch failed")).1 = ["/alerts/active"] ∧
    resultIsSuccessText ((getWeatherAlerts fmtConst "Chicago" "all").run
        (fun ep => if ep = "/alerts/active"
          then HttpOutcome.resp 200 "OK" (NwsResp.alerts [])
          else HttpOutcome.transport "fetch failed")).2 = true :=
  alertsFallbackNationwide fmtConst
    (fun ep => if ep = "/alerts/active"
      then HttpOutcome.resp 200 "OK" (NwsResp.alerts [])
      else HttpOutcome.transport "fetch failed")
    "Chicago" "all" "OK" [] rfl rfl rfl

/-! ### Claim C7 -/

/-- C7: when `find_weather_stations`'s primary calls (point metadata,
station list) succeed but the per-station latest-observation call fails
— for any reason `m` — the invocation still returns the success shape
and that station's latest-report field is the `"Not available"`
placeholder; the secondary failure never fails the whole invocation. -/
theorem stationObsFailureYieldsPlaceholder :
    ∀ (fmt : JsFmt) (env : String → HttpOutcome) (location lat lng stx1 stx2 m : String)
      (limit : Int) (pm : PointMetadata),
      parseLocation location = Except.ok (lat, lng) →
      env ("/points/" ++ lat ++ "," ++ lng) = HttpOutcome.resp 200 stx1 (NwsResp.points pm) →
      env ("/gridpoints/" ++ pm.gridId ++ "/" ++ toString pm.gridX ++ "," ++
          toString pm.gridY ++ "/stations?limit=" ++ toString limit)
        = HttpOutcome.resp 200 stx2
            (NwsResp.stations [⟨"KNYC", "New York City, Central Park", none, none⟩]) →
      weatherApiRequestE (env "/stations/KNYC/observations/latest") = Except.error m →
      resultTextContains ((findWeatherStations fmt location limit).run env).2
        "**Latest Report:** Not available" = true := by
  intro fmt env location lat lng stx1 stx2 m limit pm h1 h2 h3 h4
  have e1 : weatherApiRequestE (env ("/points/" ++ lat ++ "," ++ lng))
      = Except.ok (NwsResp.points pm) := by
    rw [h2]
    rfl
  have e2 : weatherApiRequestE (env ("/gridpoints/" ++ pm.gridId ++ "/" ++
      toString pm.gridX ++ "," ++ toString pm.gridY ++ "/stations?limit=" ++ toString limit))
      = Except.ok (NwsResp.stations [⟨"KNYC", "New York City, Central Park", none, none⟩]) := by
    rw [h3]
    rfl
  have e3 : ("/stations/" ++ "KNYC" ++ "/observations/latest" : String)
      = "/stations/KNYC/observations/latest" := rfl
  simp only [findWeatherStations, findWeatherStationsBody, getPointMetadata, stationChunks,
    stationMd, apiReq, Proc.run, proc_tryCatch_app, proc_bind_app, proc_ofExcept_app,
    proc_call_app, proc_pure_app, h1, e1, e2, NwsResp.asPoints, NwsResp.asStations,
    List.nil_append, e3, h4, List.length_cons, List.length_nil, List.cons_append]
  rw [if_neg (by decide : ¬ ((((0:Nat) + 1 == 0)) = true))]
  simp only [proc_tryCatch_app, proc_bind_app, proc_call_app, proc_pure_app, e3, h4]
  simp only [resultTextContains]
  apply strContains_append_right
  decide

/-- Witness for C7: a concrete stub whose latest-observation call is a
transport failure; the placeholder appears in a success result. -/
theorem stationObsFailureYieldsPlaceholder_witness :
    resultTextContains ((findWeatherStations fmtConst "40.7128,-74.0060" 10).run
        (fun ep =>
          if ep = "/points/40.7128,-74.006" then
            HttpOutcome.resp 200 "OK" (NwsResp.points ⟨"OKX", 32, 34, "", "", "", ""⟩)
          else if ep = "/gridpoints/OKX/32,34/stations?limit=10" then
            HttpOutcome.resp 200 "OK"
              (NwsResp.stations [⟨"KNYC", "New York City, Central Park", none, none⟩])
          else HttpOutcome.transport "fetch failed")).2
      "**Latest Report:** Not available" = true :=
  stationObsFailureYieldsPlaceholder fmtConst
    (fun ep =>
      if ep = "/points/40.7128,-74.006" then
        HttpOutcome.resp 200 "OK" (NwsResp.points ⟨"OKX", 32, 34, "", "", "", ""⟩)
      else if ep = "/gridpoints/OKX/32,34/stations?limit=10" then
        HttpOutcome.resp 200 "OK"
          (NwsResp.stations [⟨"KNYC", "New York City, Central Park", none, none⟩])
      else HttpOutcome.transport "fetch failed")
    "40.7128,-74.0060" "40.7128" "-74.006" "OK" "OK" connectMsg 10
    ⟨"OKX", 32, 34, "", "", "", ""⟩ rfl rfl rfl rfl

end Mcp
